import Mathlib

/-!
# Study Program Recommender — verification of the specified behavior

Shallow embedding of `backend/app/main.py` (the FastAPI service) together
with a model of the recommendation engine.  The repository ships only
`main.py`; the modules `app.recommender`, `app.models` and `app.database`
it imports are not part of the source tree, so the engine, the request
models and the datastore are modelled from the specification (each such
definition carries a `Modelled from the spec:` doc comment).  The
datastore (supabase tables) is modelled as in-memory lists with explicit
state passing; endpoint handlers return `Except HTTPException` results
paired with the updated store.
-/

deriving instance DecidableEq for Except

namespace Recommender

/-! ## Data model -/

/-- A row of the `programs` table: identifier, name, free-text
description, tags and skills (cf. `ProgramRecord` and the fields read in
`get_recommendations`). -/
structure ProgramRow where
  id : String
  name : String
  description : String
  tags : List String
  skills : List String
deriving Repr, DecidableEq

/-- A row of the `students` table: identifier, name, email, interest
strings and a subject → grade mapping (cf. `StudentProfile` plus the
store-generated `id`). -/
structure StudentRow where
  id : String
  name : String
  email : String
  interests : List String
  grades : List (String × Int)
deriving Repr, DecidableEq

/-! ## Recommendation engine

Modelled from the spec: `app/recommender.py` (the `recommender_engine`
object with its `fit` and `recommend` operations) is not in the source
tree; the definitions below follow §4 of the specification.  Weights are
integers: the spec's real-valued smoothed IDF `log((1+N)/(1+df)) + 1` is
irrational, so the default configuration uses the integer surrogate
`1 + ⌊(1+N)/(1+df)⌋`, which preserves the spec's qualitative requirements
(always ≥ 1, weakly decreasing in `df`, no division by zero); the IDF
weighting is a configuration parameter, as §6 requires. -/

/-- Modelled from the spec: engine error taxonomy (§7).  `ValidationError`
(a record missing a required field) is unrepresentable here because the
typed records always carry every field, so it has no constructor. -/
inductive EngineError where
  | conflictError
  | invalidArgumentError
deriving Repr, DecidableEq

/-- Modelled from the spec: the engine's configuration surface (§6):
stop-word set, tag/skill boost multiplier, grade-strength threshold,
explanation term count, and the IDF weighting (a function of the corpus
size `N` and a term's document frequency `df`). -/
structure EngineConfig where
  stopWords : List String
  boost : Nat
  gradeThreshold : Int
  explainCount : Nat
  idfOf : Nat → Nat → Int

/-- Modelled from the spec: tokenization splits a character stream at
non-alphanumeric boundaries, lower-casing as it goes.  `cur` holds the
characters of the token being built, in reverse. -/
def splitTokens : List Char → List Char → List String
  | [], cur => if cur.isEmpty then [] else [String.mk cur.reverse]
  | c :: rest, cur =>
    if c.isAlphanum then splitTokens rest (c.toLower :: cur)
    else if cur.isEmpty then splitTokens rest []
    else String.mk cur.reverse :: splitTokens rest []

/-- Modelled from the spec: lower-case, split on non-alphanumeric
boundaries, discard the stop-word set. -/
def tokenize (stop : List String) (s : String) : List String :=
  (splitTokens s.toList []).filter (fun t => !stop.contains t)

/-- Repetition of a token list `n` times (the spec's "repeated or boosted
token" treatment of categorical signals). -/
def repeatTokens : Nat → List String → List String
  | 0, _ => []
  | Nat.succ m, ts => ts ++ repeatTokens m ts

/-- Modelled from the spec: categorical fields (tags, skills, interests,
strong subjects) are tokenized and repeated `boost` times so that they
dominate free-text wording. -/
def categoricalTokens (cfg : EngineConfig) (raw : List String) : List String :=
  repeatTokens cfg.boost (raw.foldr (fun s acc => tokenize cfg.stopWords s ++ acc) [])

/-- Modelled from the spec: a program's document is the concatenation of
its description tokens and its boosted tag/skill tokens. -/
def programTokens (cfg : EngineConfig) (p : ProgramRow) : List String :=
  tokenize cfg.stopWords p.description ++ categoricalTokens cfg (p.tags ++ p.skills)

/-- Number of programs whose document contains the term `t`. -/
def docFreq (cfg : EngineConfig) (programs : List ProgramRow) (t : String) : Nat :=
  (programs.filter (fun p => (programTokens cfg p).contains t)).length

/-- The fitted vocabulary: every distinct term of the corpus, first
occurrence order (a stable term → dimension mapping, §3). -/
def vocabOf (cfg : EngineConfig) (programs : List ProgramRow) : List String :=
  (programs.foldr (fun p acc => programTokens cfg p ++ acc) []).dedup

/-- TF·IDF weights of a token multiset over the fitted vocabulary:
dimension `i` holds `count(vocab[i], tokens) * idf[i]`.  Terms outside the
vocabulary are ignored, as §4.2 requires. -/
def weightVector (vocab : List String) (idf : List Int) (tokens : List String) :
    List Int :=
  List.zipWith (fun t w => (List.count t tokens : Int) * w) vocab idf

/-- Modelled from the spec: a `FittedIndex` holds the vocabulary, the IDF
weight of each vocabulary term, and one weight vector per program (§3). -/
structure FittedIndex where
  vocab : List String
  idf : List Int
  entries : List (ProgramRow × List Int)
deriving Repr, DecidableEq

/-- Returns `true` iff the identifier list contains a repeat; `seen` accumulates
the identifiers already passed, so the *later* duplicate is the one that
trips the check. -/
def hasDupAux (seen : List String) : List String → Bool
  | [] => false
  | i :: rest => if i ∈ seen then true else hasDupAux (i :: seen) rest

/-- Builds the fitted index of a (duplicate-free) catalog. -/
def buildIndex (cfg : EngineConfig) (programs : List ProgramRow) : FittedIndex :=
  let vocab := vocabOf cfg programs
  let idf := vocab.map (fun t => cfg.idfOf programs.length (docFreq cfg programs t))
  { vocab := vocab
    idf := idf
    entries := programs.map (fun p => (p, weightVector vocab idf (programTokens cfg p))) }

/-- Modelled from the spec: `fit` (§4.1).  A repeated program identifier
signals `ConflictError` instead of silently overwriting the earlier
record's vector; otherwise a fresh index is built (an empty catalog yields
an empty vocabulary and no vectors). -/
def fit (cfg : EngineConfig) (programs : List ProgramRow) :
    Except EngineError FittedIndex :=
  if hasDupAux [] (programs.map (fun p => p.id)) then Except.error EngineError.conflictError
  else Except.ok (buildIndex cfg programs)

/-- Truncating dot product of two weight vectors. -/
def dotL : List Int → List Int → Int
  | [], _ => 0
  | _ :: _, [] => 0
  | a :: u, b :: v => a * b + dotL u v

/-- Squared L2 norm of a weight vector. -/
def normSq (u : List Int) : Int := dotL u u

/-- Modelled from the spec: the similarity score.  The spec scores by
cosine similarity — the dot product of the two unit-normalized vectors,
i.e. `dot u v / (√(normSq u) · √(normSq v))` — which is irrational in
general; the model uses its square, `(dot u v)² / (normSq u · normSq v)`,
which is rational, computable, lies in `[0,1]` by the Cauchy–Schwarz
inequality, and induces the same ranking because every weight is
non-negative (so the cosine itself is non-negative).  An all-zero vector
on either side scores `0`, the spec's "no matching signal" outcome. -/
def cosSq (u v : List Int) : ℚ :=
  if normSq u = 0 ∨ normSq v = 0 then 0
  else mkRat (dotL u v ^ 2) (normSq u * normSq v).toNat

/-- Modelled from the spec: subjects whose grade strictly exceeds the
configured threshold contribute their subject name as a categorical
token (§4.2's grade-strength signal). -/
def strongSubjects (cfg : EngineConfig) (grades : List (String × Int)) : List String :=
  (grades.filter (fun g => decide (cfg.gradeThreshold < g.2))).map (fun g => g.1)

/-- Modelled from the spec: the student's document — boosted interest
tokens plus boosted strong-subject tokens. -/
def studentTokens (cfg : EngineConfig) (s : StudentRow) : List String :=
  categoricalTokens cfg s.interests ++ categoricalTokens cfg (strongSubjects cfg s.grades)

/-- Projection of a student into a fitted index's vector space;
out-of-vocabulary terms contribute nothing. -/
def studentVector (cfg : EngineConfig) (idx : FittedIndex) (s : StudentRow) :
    List Int :=
  weightVector idx.vocab idx.idf (studentTokens cfg s)

/-- Terms present with positive weight in both vectors, paired with the
product of their weights (the contribution used to pick explanations). -/
def sharedTerms (vocab : List String) (u v : List Int) : List (String × Int) :=
  ((vocab.zip (u.zip v)).map (fun p => (p.1, p.2.1 * p.2.2))).filter
    (fun p => decide (0 < p.2))

/-- Modelled from the spec: the explanation lists the top contributing
shared terms (largest weight product first, up to `explainCount`), or
states that no matching signal exists (§4.2). -/
def explain (cfg : EngineConfig) (vocab : List String) (u v : List Int) : List String :=
  let tops :=
    (List.insertionSort (fun x y : String × Int => y.2 ≤ x.2) (sharedTerms vocab u v)).take
      cfg.explainCount
  if tops.isEmpty then ["no matching signal"]
  else tops.map (fun p => "matches term " ++ p.1)

/-- The engine's output triple, exactly as `main.py` unpacks it:
`for program, score, explanation in recommendations`. -/
abbrev RankedTriple := ProgramRow × ℚ × List String

/-- Ranking order (§4.2): descending score, ties broken by ascending
program identifier. -/
def rankRel (x y : RankedTriple) : Prop :=
  y.2.1 < x.2.1 ∨ (x.2.1 = y.2.1 ∧ x.1.id ≤ y.1.id)

instance : DecidableRel rankRel := fun x y =>
  inferInstanceAs (Decidable (y.2.1 < x.2.1 ∨ (x.2.1 = y.2.1 ∧ x.1.id ≤ y.1.id)))

/-- One scored triple per fitted program: the program, its similarity to
the student's projection, and the explanation of the match. -/
def scoredEntries (cfg : EngineConfig) (idx : FittedIndex) (student : StudentRow) :
    List RankedTriple :=
  idx.entries.map
    (fun e => (e.1, cosSq (studentVector cfg idx student) e.2,
      explain cfg idx.vocab (studentVector cfg idx student) e.2))

/-- Modelled from the spec: `recommend` (§4.2).  `top_k ≤ 0` signals
`InvalidArgumentError`; otherwise every fitted program is scored against
the student's projection, sorted (descending score, identifier
tie-break), and the first `top_k` results are returned. -/
def recommend (cfg : EngineConfig) (idx : FittedIndex) (student : StudentRow)
    (top_k : Int) : Except EngineError (List RankedTriple) :=
  if top_k ≤ 0 then Except.error EngineError.invalidArgumentError
  else
    Except.ok ((List.insertionSort rankRel (scoredEntries cfg idx student)).take
      top_k.toNat)

/-- Modelled from the spec: the default configuration the service runs
with (§6 lists these as the tunable parameters; §8's concrete scenario
fixes the grade threshold at 90). -/
def defaultConfig : EngineConfig :=
  { stopWords := ["the", "a", "an", "and", "of", "in", "for", "to"]
    boost := 3
    gradeThreshold := 90
    explainCount := 5
    idfOf := fun n df => 1 + (1 + (n : Int)) / (1 + (df : Int)) }

end Recommender

namespace Recommender

/-! ## Service layer: `backend/app/main.py`

The supabase tables become in-memory lists; every handler takes the
current store (and, for `get_recommendations`, the module-level engine's
previously fitted index) and returns its HTTP outcome together with the
updated store.  A raised `HTTPException` is an `Except.error`; the engine
errors escaping into the generic `except Exception` handler become a
500 response, as in the source. -/

/-- A FastAPI `HTTPException`: status code and detail string. -/
structure HTTPException where
  status : Nat
  detail : String
deriving Repr, DecidableEq

/-- The `str(e)` rendering of an engine exception caught by the generic
handler. -/
def engineDetail : EngineError → String
  | EngineError.conflictError => "ConflictError"
  | EngineError.invalidArgumentError => "InvalidArgumentError"

/-- Modelled from the spec: the request body of `POST /recommendations`
(`app.models.RecommendationRequest` is not in the source tree); `main.py`
reads `request.student_id` and `request.top_k`. -/
structure RecommendationRequest where
  student_id : String
  top_k : Int
deriving Repr, DecidableEq

/-- Modelled from the spec: the request body of `POST /students`
(`app.models.StudentProfile`); `main.py` reads name, email, interests and
grades. -/
structure StudentProfileIn where
  name : String
  email : String
  interests : List String
  grades : List (String × Int)
deriving Repr, DecidableEq

/-- Modelled from the spec: the request body of `POST /feedback`
(`app.models.FeedbackSubmit`); `main.py` reads program_id, clicked,
accepted and the optional rating. -/
structure FeedbackSubmit where
  program_id : String
  clicked : Bool
  accepted : Bool
  rating : Option Int
deriving Repr, DecidableEq

/-- A row of the `feedback` table, as built in `submit_feedback`. -/
structure FeedbackRow where
  student_id : String
  program_id : String
  clicked : Bool
  accepted : Bool
  rating : Option Int
deriving Repr, DecidableEq

/-- A row of the `recommendations` table, as built in
`get_recommendations` (`rec_data`). -/
structure RecRow where
  student_id : String
  program_id : String
  score : ℚ
  explanation : List String
  algorithm : String
deriving Repr, DecidableEq

/-- The response model of `POST /recommendations`
(`app.models.Recommendation`), with exactly the fields `main.py`
populates. -/
structure Recommendation where
  program_id : String
  program_name : String
  program_description : String
  score : ℚ
  explanation : List String
  tags : List String
  skills : List String
deriving Repr, DecidableEq

/-- The datastore: the four supabase tables `main.py` touches. -/
structure DB where
  students : List StudentRow
  programs : List ProgramRow
  feedback : List FeedbackRow
  recommendations : List RecRow
deriving Repr, DecidableEq

/-- The `id` supabase generates for an inserted student, modelled as the
current row count rendered as a string (its value is never inspected). -/
def freshStudentId (db : DB) : String :=
  toString db.students.length

/-- Handler of `POST /students` (`create_student`): reject an email that already
exists with a 400 before inserting; otherwise insert and return the new
row. -/
def create_student (db : DB) (student : StudentProfileIn) :
    Except HTTPException StudentRow × DB :=
  if db.students.filter (fun s => s.email == student.email) = [] then
    let row : StudentRow :=
      { id := freshStudentId db
        name := student.name
        email := student.email
        interests := student.interests
        grades := student.grades }
    (Except.ok row, { db with students := db.students ++ [row] })
  else
    (Except.error ⟨400, "Student with this email already exists"⟩, db)

/-- A response item of `get_recommendations`: the `Recommendation(...)`
constructor call, denormalizing the matched program's display data. -/
def renderRec (p : ProgramRow) (score : ℚ) (explanation : List String) :
    Recommendation :=
  { program_id := p.id
    program_name := p.name
    program_description := p.description
    score := score
    explanation := explanation
    tags := p.tags
    skills := p.skills }

/-- The `rec_data` row `get_recommendations` inserts for one engine
triple. -/
def recRowOf (sid : String) (t : RankedTriple) : RecRow :=
  { student_id := sid
    program_id := t.1.id
    score := t.2.1
    explanation := t.2.2
    algorithm := "content-based" }

/-- Handler of `POST /recommendations` (`get_recommendations`): look the student up
(404 if absent), return `[]` on an empty catalog, otherwise re-fit the
engine on the full current catalog, ask it for recommendations, insert
one `recommendations` row per returned triple and answer with the
denormalized response list.  `engine` is the module-level
`recommender_engine`'s fitted index from before the call; an engine
exception becomes a 500. -/
def get_recommendations (db : DB) (engine : Option FittedIndex)
    (req : RecommendationRequest) :
    Except HTTPException (List Recommendation) × DB × Option FittedIndex :=
  match db.students.find? (fun s => s.id == req.student_id) with
  | none => (Except.error ⟨404, "Student not found"⟩, db, engine)
  | some student_data =>
    if db.programs.isEmpty then (Except.ok [], db, engine)
    else
      match fit defaultConfig db.programs with
      | Except.error e => (Except.error ⟨500, engineDetail e⟩, db, engine)
      | Except.ok idx =>
        match recommend defaultConfig idx student_data req.top_k with
        | Except.error e => (Except.error ⟨500, engineDetail e⟩, db, some idx)
        | Except.ok recs =>
          (Except.ok (recs.map (fun t => renderRec t.1 t.2.1 t.2.2)),
           { db with recommendations :=
              db.recommendations ++ recs.map (recRowOf req.student_id) },
           some idx)

/-- Handler of `POST /feedback` (`submit_feedback`): a rating outside `[1, 5]` is a
400 raised before the insert; otherwise the row (with the rating when
present) is inserted and returned. -/
def submit_feedback (db : DB) (student_id : String) (feedback : FeedbackSubmit) :
    Except HTTPException FeedbackRow × DB :=
  match feedback.rating with
  | some r =>
    if r < 1 ∨ 5 < r then
      (Except.error ⟨400, "Rating must be between 1 and 5"⟩, db)
    else
      let row : FeedbackRow :=
        ⟨student_id, feedback.program_id, feedback.clicked, feedback.accepted, some r⟩
      (Except.ok row, { db with feedback := db.feedback ++ [row] })
  | none =>
    let row : FeedbackRow :=
      ⟨student_id, feedback.program_id, feedback.clicked, feedback.accepted, none⟩
    (Except.ok row, { db with feedback := db.feedback ++ [row] })

/-! ## Reference behaviors used by the claims -/

/-- The specification's description of a non-stale ranking: fit the
engine on the catalog *as supplied now* and recommend against that fresh
index. -/
def freshRanking (programs : List ProgramRow) (s : StudentRow) (k : Int) :
    Except EngineError (List RankedTriple) :=
  match fit defaultConfig programs with
  | Except.error e => Except.error e
  | Except.ok idx => recommend defaultConfig idx s k

/-- Rendering of an engine outcome as the endpoint's HTTP response:
engine errors surface as a 500, successful triples as the denormalized
response list. -/
def renderOutcome (r : Except EngineError (List RankedTriple)) :
    Except HTTPException (List Recommendation) :=
  match r with
  | Except.error e => Except.error ⟨500, engineDetail e⟩
  | Except.ok recs => Except.ok (recs.map (fun t => renderRec t.1 t.2.1 t.2.2))

/-- The `recommendations` row corresponding to one response item. -/
def recRowOfResp (sid : String) (r : Recommendation) : RecRow :=
  { student_id := sid
    program_id := r.program_id
    score := r.score
    explanation := r.explanation
    algorithm := "content-based" }

/-! ## Supporting lemmas -/

theorem dotL_self_nonneg (u : List Int) : 0 ≤ dotL u u := by
  induction u with
  | nil => simp [dotL]
  | cons a u ih =>
    simp only [dotL]
    nlinarith [mul_self_nonneg a]

/-- Cauchy–Schwarz for the truncating dot product. -/
theorem dotL_sq_le (u : List Int) : ∀ v : List Int, dotL u v ^ 2 ≤ dotL u u * dotL v v := by
  induction u with
  | nil => intro v; simp [dotL]
  | cons a u ih =>
    intro v
    cases v with
    | nil => simp [dotL]
    | cons b v =>
      have h1 := dotL_self_nonneg u
      have h2 := dotL_self_nonneg v
      have h3 := ih v
      simp only [dotL]
      have hS : 0 ≤ a ^ 2 * dotL v v + b ^ 2 * dotL u u :=
        add_nonneg (mul_nonneg (sq_nonneg a) h2) (mul_nonneg (sq_nonneg b) h1)
      have key : (2 * a * b * dotL u v) ^ 2 ≤ (a ^ 2 * dotL v v + b ^ 2 * dotL u u) ^ 2 := by
        nlinarith [sq_nonneg (a ^ 2 * dotL v v - b ^ 2 * dotL u u), sq_nonneg (a * b), h3]
      have habd : 2 * a * b * dotL u v ≤ a ^ 2 * dotL v v + b ^ 2 * dotL u u := by
        nlinarith [key, hS]
      nlinarith [habd, h3]

theorem cosSq_nonneg (u v : List Int) : 0 ≤ cosSq u v := by
  unfold cosSq
  split
  · exact le_refl 0
  · rw [Rat.mkRat_eq_div]
    apply div_nonneg
    · exact_mod_cast sq_nonneg (dotL u v)
    · exact Nat.cast_nonneg _

theorem cosSq_le_one (u v : List Int) : cosSq u v ≤ 1 := by
  unfold cosSq
  split
  · exact zero_le_one
  · rename_i hz
    push_neg at hz
    obtain ⟨hu, hv⟩ := hz
    have hu' : 0 < normSq u := lt_of_le_of_ne (dotL_self_nonneg u) (Ne.symm hu)
    have hv' : 0 < normSq v := lt_of_le_of_ne (dotL_self_nonneg v) (Ne.symm hv)
    have hprod : 0 < normSq u * normSq v := mul_pos hu' hv'
    have hcs : dotL u v ^ 2 ≤ ((normSq u * normSq v).toNat : Int) := by
      have := dotL_sq_le u v
      unfold normSq
      omega
    rw [Rat.mkRat_eq_div, div_le_one]
    · exact_mod_cast hcs
    · have hpos : 0 < (normSq u * normSq v).toNat := by omega
      exact_mod_cast hpos

/-- A successful `recommend` only returns scored entries of the index. -/
theorem recommend_mem (cfg : EngineConfig) (idx : FittedIndex) (s : StudentRow)
    (k : Int) (l : List RankedTriple) (h : recommend cfg idx s k = Except.ok l)
    (t : RankedTriple) (ht : t ∈ l) :
    ∃ e ∈ idx.entries,
      t = (e.1, cosSq (studentVector cfg idx s) e.2,
        explain cfg idx.vocab (studentVector cfg idx s) e.2) := by
  unfold recommend at h
  split at h
  · exact absurd h (by simp)
  · simp only [Except.ok.injEq] at h
    subst h
    have ht2 := (List.mem_insertionSort rankRel).mp (List.mem_of_mem_take ht)
    obtain ⟨e, he, rfl⟩ := List.mem_map.mp ht2
    exact ⟨e, he, rfl⟩

/-- A successful `fit` returns exactly the freshly built index. -/
theorem fit_ok (cfg : EngineConfig) (programs : List ProgramRow) (idx : FittedIndex)
    (h : fit cfg programs = Except.ok idx) : idx = buildIndex cfg programs := by
  unfold fit at h
  split at h
  · exact absurd h (by simp)
  · simp only [Except.ok.injEq] at h
    exact h.symm

/-- The program of every fitted entry comes from the input catalog. -/
theorem mem_entries_fst (cfg : EngineConfig) (programs : List ProgramRow)
    (idx : FittedIndex) (e : ProgramRow × List Int)
    (h : fit cfg programs = Except.ok idx) (he : e ∈ idx.entries) :
    e.1 ∈ programs := by
  rw [fit_ok cfg programs idx h] at he
  simp only [buildIndex] at he
  obtain ⟨p, hp, rfl⟩ := List.mem_map.mp he
  exact hp

theorem hasDupAux_of_mem (l : List String) :
    ∀ seen : List String, (∃ x ∈ l, x ∈ seen) → hasDupAux seen l = true := by
  induction l with
  | nil =>
    intro seen h
    obtain ⟨x, hx, _⟩ := h
    simp at hx
  | cons i rest ih =>
    intro seen h
    obtain ⟨x, hx, hxs⟩ := h
    unfold hasDupAux
    by_cases hi : i ∈ seen
    · rw [if_pos hi]
    · rw [if_neg hi]
      rcases List.mem_cons.mp hx with rfl | hxr
      · exact absurd hxs hi
      · exact ih (i :: seen) ⟨x, hxr, List.mem_cons_of_mem i hxs⟩

theorem hasDupAux_of_not_nodup (l : List String) :
    ∀ seen : List String, ¬ l.Nodup → hasDupAux seen l = true := by
  induction l with
  | nil =>
    intro seen h
    exact absurd List.nodup_nil h
  | cons i rest ih =>
    intro seen h
    unfold hasDupAux
    by_cases hi : i ∈ seen
    · rw [if_pos hi]
    · rw [if_neg hi]
      rw [List.nodup_cons] at h
      rcases not_and_or.mp h with hir | hnd
      · exact hasDupAux_of_mem rest (i :: seen) ⟨i, not_not.mp hir, List.mem_cons_self i seen⟩
      · exact ih (i :: seen) hnd

/-! ## Concrete store used by the witnesses -/

/-- A concrete student (the spec's §8 scenario: interest "data", a strong
grade in "math"). -/
def annRow : StudentRow :=
  { id := "s1", name := "Ann", email := "ann@x", interests := ["data"],
    grades := [("math", 95)] }

/-- A concrete data-oriented program. -/
def prog1 : ProgramRow :=
  { id := "p1", name := "Data Science", description := "data",
    tags := ["data"], skills := ["sql"] }

/-- A concrete arts program with vocabulary disjoint from `annRow`. -/
def prog2 : ProgramRow :=
  { id := "p2", name := "Visual Arts", description := "art",
    tags := ["art"], skills := ["drawing"] }

/-- A second record sharing `prog1`'s identifier. -/
def prog1dup : ProgramRow :=
  { id := "p1", name := "Other", description := "other",
    tags := [], skills := [] }

/-- A concrete store holding one student and a two-program catalog. -/
def db0 : DB :=
  { students := [annRow], programs := [prog1, prog2], feedback := [],
    recommendations := [] }

/-- The store `db0` with an empty program catalog. -/
def dbNoPrograms : DB :=
  { students := [annRow], programs := [], feedback := [],
    recommendations := [] }

/-- A concrete recommendation request for the student of `db0`. -/
def req0 : RecommendationRequest := { student_id := "s1", top_k := 5 }

/-- The index `fit defaultConfig db0.programs` produces. -/
def idx0 : FittedIndex :=
  { vocab := ["data", "sql", "art", "drawing"]
    idf := [2, 2, 2, 2]
    entries := [(prog1, [8, 6, 0, 0]), (prog2, [0, 0, 8, 6])] }

/-- A stale previously fitted index, unrelated to `db0`'s catalog. -/
def staleIdx : FittedIndex := { vocab := [], idf := [], entries := [] }

/-- A small hand-made fitted index over a single program. -/
def idx1 : FittedIndex :=
  { vocab := ["data"], idf := [1], entries := [(prog1, [4])] }

/-- The response `get_recommendations db0 none req0` returns. -/
def resp0 : List Recommendation :=
  [renderRec prog1 (mkRat 16 25) ["matches term data"],
   renderRec prog2 0 ["no matching signal"]]

/-- The `recommendations` rows that call inserts. -/
def rows0 : List RecRow :=
  [⟨"s1", "p1", mkRat 16 25, ["matches term data"], "content-based"⟩,
   ⟨"s1", "p2", 0, ["no matching signal"], "content-based"⟩]

/-- The store after that call. -/
def dbAfter : DB := { db0 with recommendations := rows0 }

/-! ## Claims -/

/-- C3: for every fitted index with `N` programs, every student and every
valid `top_k` (`k ≥ 1`), `recommend` succeeds and returns exactly
`min(k, N)` results. -/
theorem recommend_returns_min_topk_entries (cfg : EngineConfig) (idx : FittedIndex)
    (s : StudentRow) (k : Int) (hk : 1 ≤ k) :
    ∃ l, recommend cfg idx s k = Except.ok l ∧
      l.length = min k.toNat idx.entries.length := by
  unfold recommend
  rw [if_neg (by omega : ¬ k ≤ 0)]
  refine ⟨_, rfl, ?_⟩
  rw [List.length_take, List.length_insertionSort]
  simp [scoredEntries]

/-- Witness for C3: at the concrete index `idx0` (two programs) and
`top_k = 5`, the hypotheses hold and the theorem applies. -/
theorem recommend_returns_min_topk_entries_witness :
    ∃ l, recommend defaultConfig idx0 annRow 5 = Except.ok l ∧
      l.length = min (5 : Int).toNat idx0.entries.length :=
  recommend_returns_min_topk_entries defaultConfig idx0 annRow 5 (by decide)

/-- C4: `recommend` with `top_k ≤ 0` signals `InvalidArgumentError`
instead of returning a result sequence. -/
theorem recommend_nonpositive_topk_invalid (cfg : EngineConfig) (idx : FittedIndex)
    (s : StudentRow) (k : Int) (hk : k ≤ 0) :
    recommend cfg idx s k = Except.error EngineError.invalidArgumentError := by
  unfold recommend
  rw [if_pos hk]

/-- Witness for C4: `top_k = 0` at a concrete index. -/
theorem recommend_nonpositive_topk_invalid_witness :
    recommend defaultConfig idx0 annRow 0 =
      Except.error EngineError.invalidArgumentError :=
  recommend_nonpositive_topk_invalid defaultConfig idx0 annRow 0 (by decide)

/-- C5: `fit` on a catalog containing two records that share an
identifier signals `ConflictError` instead of silently overwriting. -/
theorem fit_duplicate_id_conflict (cfg : EngineConfig) (programs : List ProgramRow)
    (hdup : ¬ (programs.map (fun p => p.id)).Nodup) :
    fit cfg programs = Except.error EngineError.conflictError := by
  unfold fit
  rw [if_pos (hasDupAux_of_not_nodup (programs.map (fun p => p.id)) [] hdup)]

/-- Witness for C5: two concrete records sharing the identifier "p1". -/
theorem fit_duplicate_id_conflict_witness :
    fit defaultConfig [prog1, prog1dup] = Except.error EngineError.conflictError :=
  fit_duplicate_id_conflict defaultConfig [prog1, prog1dup] (by decide)

/-- C6: the score attached to every triple a successful `recommend`
returns lies in the closed interval `[0, 1]`. -/
theorem recommend_scores_in_unit_interval (cfg : EngineConfig) (idx : FittedIndex)
    (s : StudentRow) (k : Int) (l : List RankedTriple)
    (h : recommend cfg idx s k = Except.ok l) (t : RankedTriple) (ht : t ∈ l) :
    0 ≤ t.2.1 ∧ t.2.1 ≤ 1 := by
  obtain ⟨e, _, rfl⟩ := recommend_mem cfg idx s k l h t ht
  exact ⟨cosSq_nonneg _ _, cosSq_le_one _ _⟩

/-- Witness for C6: the concrete call `recommend defaultConfig idx1
annRow 1` succeeds with one triple, whose score the theorem bounds. -/
theorem recommend_scores_in_unit_interval_witness :
    0 ≤ (prog1, (1 : ℚ), ["matches term data"]).2.1 ∧
      (prog1, (1 : ℚ), ["matches term data"]).2.1 ≤ 1 :=
  recommend_scores_in_unit_interval defaultConfig idx1 annRow 1
    [(prog1, (1 : ℚ), ["matches term data"])] (by decide)
    (prog1, (1 : ℚ), ["matches term data"]) (by decide)

/-- C1: when the current program catalog is empty, `POST
/recommendations` answers an empty list (no error is raised), whatever
the requested `top_k` and whichever student the request names. -/
theorem get_recommendations_empty_catalog (db : DB) (engine : Option FittedIndex)
    (req : RecommendationRequest) (s : StudentRow)
    (hs : db.students.find? (fun x => x.id == req.student_id) = some s)
    (hp : db.programs = []) :
    get_recommendations db engine req = (Except.ok [], db, engine) := by
  unfold get_recommendations
  rw [hs]
  simp [hp]

/-- Witness for C1: the concrete store with an empty catalog. -/
theorem get_recommendations_empty_catalog_witness :
    get_recommendations dbNoPrograms (some staleIdx) req0 =
      (Except.ok [], dbNoPrograms, some staleIdx) :=
  get_recommendations_empty_catalog dbNoPrograms (some staleIdx) req0 annRow
    (by decide) (by decide)

/-- C2: the response of `POST /recommendations` is computed by re-fitting
the engine on the full current catalog and ranking against that fresh
index — it never depends on the previously fitted (possibly stale)
index `engine`. -/
theorem get_recommendations_ranks_fresh_catalog (db : DB)
    (engine : Option FittedIndex) (req : RecommendationRequest) (s : StudentRow)
    (hs : db.students.find? (fun x => x.id == req.student_id) = some s)
    (hp : db.programs.isEmpty = false) :
    (get_recommendations db engine req).1 =
      renderOutcome (freshRanking db.programs s req.top_k) := by
  unfold get_recommendations freshRanking renderOutcome
  rw [hs, hp]
  cases hfit : fit defaultConfig db.programs with
  | error e => simp
  | ok idx =>
    cases hrec : recommend defaultConfig idx s req.top_k with
    | error e => simp [hrec]
    | ok recs => simp [hrec]

/-- Witness for C2: at the concrete store, with a stale index supplied,
the response still equals the freshly fitted ranking. -/
theorem get_recommendations_ranks_fresh_catalog_witness :
    (get_recommendations db0 (some staleIdx) req0).1 =
      renderOutcome (freshRanking db0.programs annRow req0.top_k) :=
  get_recommendations_ranks_fresh_catalog db0 (some staleIdx) req0 annRow
    (by decide) (by decide)

/-- C7: every returned recommendation denormalizes a catalog program's
display data — identifier, name, description, tags and skills — next to
its score and explanation. -/
theorem get_recommendations_denormalizes_program (db : DB)
    (engine : Option FittedIndex) (req : RecommendationRequest)
    (resp : List Recommendation) (db2 : DB) (eng2 : Option FittedIndex)
    (h : get_recommendations db engine req = (Except.ok resp, db2, eng2))
    (r : Recommendation) (hr : r ∈ resp) :
    ∃ p ∈ db.programs, r = renderRec p r.score r.explanation := by
  unfold get_recommendations at h
  split at h
  · simp at h
  · rename_i s hfind
    split at h
    · simp only [Prod.mk.injEq, Except.ok.injEq] at h
      obtain ⟨h1, -, -⟩ := h
      rw [← h1] at hr
      simp at hr
    · split at h
      · simp at h
      · rename_i idx hfit
        split at h
        · simp at h
        · rename_i recs hrec
          simp only [Prod.mk.injEq, Except.ok.injEq] at h
          obtain ⟨hresp, -, -⟩ := h
          subst hresp
          obtain ⟨t, htmem, rfl⟩ := List.mem_map.mp hr
          obtain ⟨e, he, rfl⟩ := recommend_mem defaultConfig idx s req.top_k recs hrec t htmem
          exact ⟨e.1, mem_entries_fst defaultConfig db.programs idx e hfit he, rfl⟩

/-- Witness for C7: the first response item of the concrete successful
call carries `prog1`'s display data. -/
theorem get_recommendations_denormalizes_program_witness :
    ∃ p ∈ db0.programs,
      renderRec prog1 (mkRat 16 25) ["matches term data"] =
        renderRec p (renderRec prog1 (mkRat 16 25) ["matches term data"]).score
          (renderRec prog1 (mkRat 16 25) ["matches term data"]).explanation :=
  get_recommendations_denormalizes_program db0 none req0 resp0 dbAfter (some idx0)
    (by decide) (renderRec prog1 (mkRat 16 25) ["matches term data"]) (by decide)

/-- C8: a feedback submission whose rating is present and outside
`[1, 5]` fails with a 400 and leaves the store untouched (the rating
check precedes the insert). -/
theorem submit_feedback_bad_rating_rejected (db : DB) (sid : String)
    (fb : FeedbackSubmit) (r : Int) (hr : fb.rating = some r)
    (hbad : r < 1 ∨ 5 < r) :
    submit_feedback db sid fb =
      (Except.error ⟨400, "Rating must be between 1 and 5"⟩, db) := by
  unfold submit_feedback
  rw [hr]
  simp only []
  rw [if_pos hbad]

/-- Witness for C8: a rating of 9. -/
theorem submit_feedback_bad_rating_rejected_witness :
    submit_feedback db0 "s1" ⟨"p1", true, false, some 9⟩ =
      (Except.error ⟨400, "Rating must be between 1 and 5"⟩, db0) :=
  submit_feedback_bad_rating_rejected db0 "s1" ⟨"p1", true, false, some 9⟩ 9
    (by decide) (by decide)

/-- C9: creating a student whose email an existing student already holds
fails with a 400 before any insert; the store is unchanged, so no second
record with that email appears. -/
theorem create_student_duplicate_email_rejected (db : DB)
    (student : StudentProfileIn) (h : ∃ s ∈ db.students, s.email = student.email) :
    create_student db student =
      (Except.error ⟨400, "Student with this email already exists"⟩, db) := by
  unfold create_student
  rw [if_neg]
  intro hnil
  obtain ⟨s, hs, he⟩ := h
  have hmem : s ∈ db.students.filter (fun x => x.email == student.email) :=
    List.mem_filter.mpr ⟨hs, by simp [he]⟩
  rw [hnil] at hmem
  simp at hmem

/-- Witness for C9: re-registering `annRow`'s email. -/
theorem create_student_duplicate_email_rejected_witness :
    create_student db0 ⟨"Another", "ann@x", [], []⟩ =
      (Except.error ⟨400, "Student with this email already exists"⟩, db0) :=
  create_student_duplicate_email_rejected db0 ⟨"Another", "ann@x", [], []⟩
    (by decide)

/-- C10: every successful `POST /recommendations` persists, per returned
item, one `recommendations` row with the same program, score and
explanation — rows and response correspond one to one. -/
theorem get_recommendations_persists_rows (db : DB) (engine : Option FittedIndex)
    (req : RecommendationRequest) (resp : List Recommendation) (db2 : DB)
    (eng2 : Option FittedIndex)
    (h : get_recommendations db engine req = (Except.ok resp, db2, eng2)) :
    db2.recommendations =
      db.recommendations ++ resp.map (recRowOfResp req.student_id) := by
  unfold get_recommendations at h
  split at h
  · simp at h
  · split at h
    · simp only [Prod.mk.injEq, Except.ok.injEq] at h
      obtain ⟨h1, h2, -⟩ := h
      rw [← h1, ← h2]
      simp
    · split at h
      · simp at h
      · split at h
        · simp at h
        · rename_i recs hrec
          simp only [Prod.mk.injEq, Except.ok.injEq] at h
          obtain ⟨hresp, hdb2, -⟩ := h
          rw [← hdb2, ← hresp]
          simp only [List.map_map]
          rfl

/-- Witness for C10: the concrete successful call persists exactly the
rows matching its two response items. -/
theorem get_recommendations_persists_rows_witness :
    dbAfter.recommendations =
      db0.recommendations ++ resp0.map (recRowOfResp req0.student_id) :=
  get_recommendations_persists_rows db0 none req0 resp0 dbAfter (some idx0)
    (by decide)

end Recommender
